import Mathlib

/-!
Verification of the kanboard-huggingface agent's report pipeline
(`src/app.py`).

We shallowly embed the core pipeline: task classification
(`classify_tasks`), report assembly (`build_report_text`), the
summarization failure policy (`hf_summary`), local persistence
(`save_report_content` — the content written by `save_report`) and the
run sequencing (`run`).  External effects (the Kanboard fetch, the
Hugging Face chat-completions call, SMTP delivery, the wall clock) are
modelled as an explicit `World` of call outcomes, and file/mail side
effects as an event trace.  Fallible Python code (expressions that can
raise) is modelled with `Option`/`Except`.
-/

namespace KanboardAgent

/-- The Python value held in a task's `date_due` field: absent (`None`),
an epoch integer, or a string (the Kanboard JSON-RPC API serializes
numbers as strings, which is why `app.py` applies `int()` to the field). -/
inductive DueField where
  | vNone : DueField
  | vInt : Int → DueField
  | vStr : String → DueField
deriving DecidableEq

/-- One Kanboard task, restricted to the fields the pipeline reads.
`column_name` is `Option` because the initial fetch may omit it
(`t.get("column_name")` returns `None`). -/
structure Task where
  id : String
  title : String
  column_name : Option String
  date_due : DueField
deriving DecidableEq

/-- Python `x or ""` on an optional string: `None` and `""` are falsy. -/
def pyOrEmpty : Option String → String
  | none => ""
  | some s => s

/-- Python `str.strip()` at the character-list level: drop whitespace
from both ends. -/
def stripChars (l : List Char) : List Char :=
  ((l.dropWhile Char.isWhitespace).reverse.dropWhile Char.isWhitespace).reverse

/-- Python `str.strip()`. -/
def pyStrip (s : String) : String := ⟨stripChars s.data⟩

/-- Python `str.lower()` (ASCII model, matching the column labels used). -/
def pyLower (s : String) : String := ⟨s.data.map Char.toLower⟩

/-- The `wip_columns` list of `classify_tasks` (src/app.py:86-87). -/
def wip_columns : List String :=
  ["work in progress", "dev", "qc", "uat", "staging", "production"]

/-- The `blocked_columns` list of `classify_tasks` (src/app.py:88):
empty by default. -/
def blocked_columns : List String := []

/-- The normalized column key of a task:
`(t.get("column_name") or "").strip().lower()` (src/app.py:92). -/
def normCol (t : Task) : String := pyLower (pyStrip (pyOrEmpty t.column_name))

/-- The first membership test of the loop:
`col in [c.lower() for c in wip_columns]` (src/app.py:93). -/
def isWipCol (t : Task) : Bool := (wip_columns.map pyLower).contains (normCol t)

/-- The second membership test of the loop:
`col in [c.lower() for c in blocked_columns]` (src/app.py:95). -/
def isBlockedCol (t : Task) : Bool :=
  (blocked_columns.map pyLower).contains (normCol t)

/-- `classify_tasks` (src/app.py:85-98): the loop walks the input in
order and appends each task to `wip` on the first test, else to
`blocked` on the second test, else to neither. -/
def classify_tasks : List Task → List Task × List Task
  | [] => ([], [])
  | t :: ts =>
    let r := classify_tasks ts
    if isWipCol t then (t :: r.1, r.2)
    else if isBlockedCol t then (r.1, t :: r.2)
    else r

/-- Tasks matching neither membership test: omitted from both outputs. -/
def isUnmatched (t : Task) : Bool := !isWipCol t && !isBlockedCol t

/-- The unmatched remainder of an input list. -/
def unmatched_tasks (ts : List Task) : List Task := ts.filter isUnmatched

/-- The bucket a task lands in, following the branch order of the loop. -/
inductive Bucket where
  | active : Bucket
  | blocked : Bucket
  | unmatched : Bucket
deriving DecidableEq

/-- Bucket assignment of one task, in the matching order of
`classify_tasks` (wip test first, blocked test second). -/
def bucketOf (t : Task) : Bucket :=
  if isWipCol t then .active else if isBlockedCol t then .blocked else .unmatched

/-- Civil-calendar conversion of a count of days since 1970-01-01: the
date part of Python `datetime.fromtimestamp` (UTC model of the
local-time conversion). -/
def civilFromDays (z : Int) : Int × Int × Int :=
  let zd : Int := z + 719468
  let era : Int := zd.fdiv 146097
  let doe : Int := zd - era * 146097
  let yoe : Int := (doe - doe.fdiv 1460 + doe.fdiv 36524 - doe.fdiv 146096).fdiv 365
  let y : Int := yoe + era * 400
  let doy : Int := doe - (365 * yoe + yoe.fdiv 4 - yoe.fdiv 100)
  let mp : Int := (5 * doy + 2).fdiv 153
  let d : Int := doy - (153 * mp + 2).fdiv 5 + 1
  let m : Int := mp + (if mp < 10 then 3 else -9)
  (y + (if m ≤ 2 then 1 else 0), m, d)

/-- Zero-pad to two digits (`%m`, `%d`). -/
def pad2 (n : Int) : String :=
  if 0 ≤ n ∧ n < 10 then "0" ++ toString n else toString n

/-- Zero-pad to four digits (`%Y`). -/
def pad4 (n : Int) : String :=
  if 0 ≤ n ∧ n < 10 then "000" ++ toString n
  else if 0 ≤ n ∧ n < 100 then "00" ++ toString n
  else if 0 ≤ n ∧ n < 1000 then "0" ++ toString n
  else toString n

/-- `datetime.fromtimestamp(ts).strftime("%Y-%m-%d")`. -/
def formatEpochDate (ts : Int) : String :=
  let c := civilFromDays (ts.fdiv 86400)
  pad4 c.1 ++ "-" ++ pad2 c.2.1 ++ "-" ++ pad2 c.2.2

/-- The due-date expression of `build_report_text` (src/app.py:118-119):
`t.get("date_due") and datetime.fromtimestamp(int(t["date_due"])).strftime("%Y-%m-%d") or "No due"`.
Python truthiness: `None`, `0` and `""` are falsy, so the `and`
short-circuits and the `or` yields `"No due"`.  A truthy value reaches
`int()`, which raises `ValueError` on a non-numeric string (modelled as
`none`); the formatted date is nonempty, hence truthy for the `or`. -/
def dueStr : DueField → Option String
  | .vNone => some "No due"
  | .vInt n => if n = 0 then some "No due" else some (formatEpochDate n)
  | .vStr s => if s = "" then some "No due" else (s.toInt?).map formatEpochDate

/-- Rendering of `t.get('column_name')` inside the f-string
(Python prints `None` as `"None"`). -/
def pyShowOpt : Option String → String
  | none => "None"
  | some s => s

/-- One task line of a report section (src/app.py:120-122). -/
def taskLine (t : Task) : Option String :=
  (dueStr t.date_due).map fun due =>
    "  - " ++ t.title ++ " (id:" ++ t.id ++ " | due:" ++ due ++
      " | column:" ++ pyShowOpt t.column_name ++ ")"

/-- The `for t in items` loop of the `section` helper (src/app.py:117-122):
one line per task, in order; the first `ValueError` raised by a due-date
conversion aborts the whole build (modelled as `none`). -/
def taskLines : List Task → Option (List String)
  | [] => some []
  | t :: ts => (taskLine t).bind fun l => (taskLines ts).map fun ls => l :: ls

/-- The `section` helper of `build_report_text` (src/app.py:112-123):
the lines appended for one bucket (title line; then `"  None\n"` when the
bucket is empty, else one line per task followed by an empty line). -/
def sectionLines (title : String) (items : List Task) : Option (List String) :=
  match items with
  | [] => some [title ++ ":", "  None\n"]
  | _ => (taskLines items).map fun ls => (title ++ ":") :: (ls ++ [""])

/-- All lines of the report before joining (src/app.py:103-127).  The
generation timestamp read from the clock is lifted to the `now`
parameter. -/
def reportLines (project_id : Int) (now : String) (wip blocked : List Task) :
    Option (List String) := do
  let s1 ← sectionLines "Work In Progress" wip
  let s2 ← sectionLines "Blocked / On Hold" blocked
  pure (["Kanboard AI Report â€” Project " ++ toString project_id,
         "Generated: " ++ now, "",
         "Summary counts: InProgress=" ++ toString wip.length ++
           ", Blocked=" ++ toString blocked.length ++ "\n"] ++ s1 ++ s2)

/-- `build_report_text` (src/app.py:103-127): `"\n".join(lines)`. -/
def build_report_text (project_id : Int) (now : String) (wip blocked : List Task) :
    Option String :=
  (reportLines project_id now wip blocked).map (String.intercalate "\n")

/-- The prompt template of `hf_summary` (src/app.py:133-143), embedding
the report text verbatim. -/
def hf_prompt (report_text : String) : String :=
  "\nYou are a project management assistant.\n\nSummarize the following Kanboard report in:\n1. 3 key risk points\n2. 3 recommended actions\n3. 2 productivity improvement tips\n\nReport:\n"
    ++ report_text ++ "\n"

/-- `hf_summary` (src/app.py:132-155).  The external chat-completions
call is an oracle from the prompt to either a reply or a raised
exception message; the `except Exception` branch catches any failure and
returns the placeholder string — so the function always returns
normally. -/
def hf_summary (callOracle : String → Except String String)
    (report_text : String) : String :=
  match callOracle (hf_prompt report_text) with
  | .ok content => content
  | .error e => "Unable to generate summary. Error: " ++ e

/-- The raw-report trailer always written by `save_report`
(src/app.py:168-169). -/
def rawSection (report_text : String) : String :=
  "===== Kanboard Raw Report =====\n" ++ report_text

/-- The file content written by `save_report` (src/app.py:160-171):
`if summary_text:` is Python truthiness, false for `None` and `""`. -/
def save_report_content (report_text : String) : Option String → String
  | some s =>
    if s != "" then
      "===== HF Summary =====\n" ++ s ++ "\n\n" ++ rawSection report_text
    else rawSection report_text
  | none => rawSection report_text

/-- Outcomes of the external collaborators for one run, plus the clock
reading used for the report header. -/
structure World where
  fetch : Except String (List Task)
  hf : String → Except String String
  send : Except String Unit
  now : String

/-- Observable side effects of a run: the file write (with its content),
the attempt to hand the mail to the transport, and its success. -/
inductive Event where
  | saved : String → Event
  | emailAttempt : Event
  | emailSent : Event
deriving DecidableEq

/-- `run` (src/app.py:196-220): fetch, classify, build, summarize,
persist, then (unless `test_only`) deliver.  `hf_summary` catches every
exception itself, so the `except Exception` branch around it
(src/app.py:203-205) is unreachable and `summary` is always the string
it returned.  A fetch failure or a `ValueError` from the due-date
conversion propagates with nothing persisted; a mail-transport failure
propagates after the file write. -/
def run (test_only : Bool) (project_id : Int) (w : World) :
    List Event × Except String Unit :=
  match w.fetch with
  | .error e => ([], .error e)
  | .ok tasks =>
    let wb := classify_tasks tasks
    match build_report_text project_id w.now wb.1 wb.2 with
    | none => ([], .error "ValueError: invalid date_due")
    | some plain =>
      let summary := hf_summary w.hf plain
      let content := save_report_content plain (some summary)
      if test_only then ([Event.saved content], .ok ())
      else
        match w.send with
        | .error e => ([Event.saved content, Event.emailAttempt], .error e)
        | .ok _ =>
          ([Event.saved content, Event.emailAttempt, Event.emailSent], .ok ())

/-! ## Helper lemmas -/

/-- ASCII lowercasing maps no character into or out of the whitespace set,
so stripping commutes with lowercasing. -/
theorem isWhitespace_toLower (c : Char) :
    (Char.toLower c).isWhitespace = c.isWhitespace := by
  rw [show Char.toLower c
      = if c.toNat ≥ 65 ∧ c.toNat ≤ 90 then Char.ofNat (c.toNat + 32) else c from rfl]
  split
  next h =>
    have hv : (Char.toNat c + 32).isValidChar := Or.inl (by omega)
    have ht : (Char.ofNat (Char.toNat c + 32)).toNat = Char.toNat c + 32 := by
      rw [Char.ofNat, dif_pos hv]; rfl
    have hws : ∀ x : Char, x.isWhitespace = true →
        x.toNat = 32 ∨ x.toNat = 9 ∨ x.toNat = 13 ∨ x.toNat = 10 := by
      intro x hx
      unfold Char.isWhitespace at hx
      simp only [Bool.or_eq_true, decide_eq_true_eq] at hx
      rcases hx with ((h1 | h1) | h1) | h1 <;> subst h1 <;> simp [Char.toNat]
    cases hL : (Char.ofNat (Char.toNat c + 32)).isWhitespace with
    | false =>
      cases hc : c.isWhitespace with
      | false => rfl
      | true => exact absurd (hws c hc) (by omega)
    | true =>
      have := hws _ hL
      rw [ht] at this
      exact absurd this (by omega)
  next => rfl

theorem stripChars_map_toLower (l : List Char) :
    stripChars (l.map Char.toLower) = (stripChars l).map Char.toLower := by
  have hfun : (Char.isWhitespace ∘ Char.toLower) = Char.isWhitespace :=
    funext fun c => isWhitespace_toLower c
  unfold stripChars
  rw [List.dropWhile_map, hfun, ← List.map_reverse, List.dropWhile_map, hfun,
    ← List.map_reverse]

theorem pyLower_pyStrip (s : String) :
    pyLower (pyStrip s) = String.mk (stripChars (pyLower s).data) := by
  unfold pyLower pyStrip
  exact congrArg String.mk (stripChars_map_toLower s.data).symm

/-- Two column labels with the same lowercasing have the same normalized
column key. -/
theorem normCol_congr (t1 t2 : Task) (s1 s2 : String)
    (h1 : t1.column_name = some s1) (h2 : t2.column_name = some s2)
    (hcase : pyLower s1 = pyLower s2) : normCol t1 = normCol t2 := by
  unfold normCol pyOrEmpty
  rw [h1, h2]
  show pyLower (pyStrip s1) = pyLower (pyStrip s2)
  rw [pyLower_pyStrip, pyLower_pyStrip, hcase]

/-- The loop of `classify_tasks` computes the two filters of the input,
in input order. -/
theorem classify_eq_filter (ts : List Task) :
    classify_tasks ts
      = (ts.filter isWipCol, ts.filter fun t => !isWipCol t && isBlockedCol t) := by
  induction ts with
  | nil => rfl
  | cons t ts ih =>
    simp only [classify_tasks, ih, List.filter_cons]
    cases hw : isWipCol t <;> cases hb : isBlockedCol t <;> simp [hw, hb]

theorem length_three_filter (ts : List Task) :
    (ts.filter isWipCol).length
      + (ts.filter fun t => !isWipCol t && isBlockedCol t).length
      + (ts.filter isUnmatched).length = ts.length := by
  induction ts with
  | nil => rfl
  | cons t ts ih =>
    simp only [List.filter_cons]
    cases hw : isWipCol t <;> cases hb : isBlockedCol t <;>
      simp [isUnmatched, hw, hb] <;> omega

/-- Well-formed due field per the data model: absent, an epoch integer, or
a string that is empty (falsy, never reaches `int()`) or parses as an
integer (Kanboard serializes numbers as decimal strings). -/
def wellFormedDue : DueField → Bool
  | .vNone => true
  | .vInt _ => true
  | .vStr s => s == "" || (s.toInt?).isSome

theorem dueStr_isSome_of_wf (d : DueField) (h : wellFormedDue d = true) :
    ∃ y, dueStr d = some y := by
  cases d with
  | vNone => exact ⟨_, rfl⟩
  | vInt n =>
    by_cases h0 : n = 0
    · exact ⟨"No due", by simp [dueStr, h0]⟩
    · exact ⟨formatEpochDate n, by simp [dueStr, h0]⟩
  | vStr s =>
    simp only [wellFormedDue, Bool.or_eq_true, beq_iff_eq,
      Option.isSome_iff_exists] at h
    by_cases h0 : s = ""
    · exact ⟨"No due", by simp [dueStr, h0]⟩
    · rcases h with h | ⟨n, hn⟩
      · exact absurd h h0
      · exact ⟨formatEpochDate n, by simp [dueStr, h0, hn]⟩

theorem taskLine_isSome_of_wf (t : Task) (h : wellFormedDue t.date_due = true) :
    ∃ y, taskLine t = some y := by
  obtain ⟨d, hd⟩ := dueStr_isSome_of_wf t.date_due h
  exact ⟨_, by unfold taskLine; rw [hd]; rfl⟩

theorem taskLines_isSome (items : List Task)
    (h : ∀ t ∈ items, wellFormedDue t.date_due = true) :
    ∃ ys, taskLines items = some ys := by
  induction items with
  | nil => exact ⟨[], rfl⟩
  | cons t ts ih =>
    obtain ⟨y, hy⟩ := taskLine_isSome_of_wf t (h t (List.mem_cons_self t ts))
    obtain ⟨ys, hys⟩ := ih fun a ha => h a (List.mem_cons_of_mem t ha)
    exact ⟨y :: ys, by simp [taskLines, hy, hys]⟩

theorem sectionLines_isSome (title : String) (items : List Task)
    (h : ∀ t ∈ items, wellFormedDue t.date_due = true) :
    ∃ ls, sectionLines title items = some ls := by
  cases items with
  | nil => exact ⟨_, rfl⟩
  | cons t ts =>
    obtain ⟨ys, hys⟩ := taskLines_isSome (t :: ts) h
    exact ⟨_, by unfold sectionLines; rw [hys]; rfl⟩

/-! ## Claim theorems -/

/-- C3: for every input task list, `classify_tasks` partitions it — the
bucket sizes plus the unmatched remainder sum to the input length, and
each input task lies in exactly one of the two buckets or the unmatched
remainder (the buckets are mutually exclusive). -/
theorem spec_C3_partition (ts : List Task) :
    ((classify_tasks ts).1.length + (classify_tasks ts).2.length
        + (unmatched_tasks ts).length = ts.length)
    ∧ (∀ t ∈ ts,
        (t ∈ (classify_tasks ts).1 ∧ t ∉ (classify_tasks ts).2 ∧ t ∉ unmatched_tasks ts)
      ∨ (t ∈ (classify_tasks ts).2 ∧ t ∉ (classify_tasks ts).1 ∧ t ∉ unmatched_tasks ts)
      ∨ (t ∈ unmatched_tasks ts ∧ t ∉ (classify_tasks ts).1 ∧ t ∉ (classify_tasks ts).2)) := by
  rw [classify_eq_filter]
  refine ⟨length_three_filter ts, ?_⟩
  intro t ht
  simp only [unmatched_tasks, List.mem_filter, isUnmatched]
  cases hw : isWipCol t <;> cases hb : isBlockedCol t <;> simp [ht, hw, hb]

/-- C5: `classify_tasks` is a stable partition — each output equals the
corresponding filter of the input, hence each output is a sublist of the
input and tasks keep their relative input order. -/
theorem spec_C5_stable (ts : List Task) :
    classify_tasks ts
        = (ts.filter isWipCol, ts.filter fun t => !isWipCol t && isBlockedCol t)
    ∧ List.Sublist (classify_tasks ts).1 ts ∧ List.Sublist (classify_tasks ts).2 ts := by
  refine ⟨classify_eq_filter ts, ?_, ?_⟩ <;> rw [classify_eq_filter] <;>
    exact List.filter_sublist _

/-- C4: classification is invariant under letter case of the column label —
two tasks whose `column_name` values differ only in case pass the same
membership tests and land in the same bucket. -/
theorem spec_C4_case_insensitive (t1 t2 : Task) (s1 s2 : String)
    (h1 : t1.column_name = some s1) (h2 : t2.column_name = some s2)
    (hcase : pyLower s1 = pyLower s2) :
    isWipCol t1 = isWipCol t2 ∧ isBlockedCol t1 = isBlockedCol t2
      ∧ bucketOf t1 = bucketOf t2 := by
  have hn := normCol_congr t1 t2 s1 s2 h1 h2 hcase
  unfold bucketOf isWipCol isBlockedCol
  rw [hn]
  exact ⟨rfl, rfl, rfl⟩

/-- Witness for C4 at the spec's own example `"Staging"` / `"staging"`. -/
theorem spec_C4_witness :
    ((Task.mk "1" "A" (some "Staging") DueField.vNone).column_name = some "Staging")
    ∧ ((Task.mk "2" "B" (some "staging") DueField.vNone).column_name = some "staging")
    ∧ pyLower "Staging" = pyLower "staging"
    ∧ (isWipCol (Task.mk "1" "A" (some "Staging") DueField.vNone)
        = isWipCol (Task.mk "2" "B" (some "staging") DueField.vNone)
      ∧ isBlockedCol (Task.mk "1" "A" (some "Staging") DueField.vNone)
        = isBlockedCol (Task.mk "2" "B" (some "staging") DueField.vNone)
      ∧ bucketOf (Task.mk "1" "A" (some "Staging") DueField.vNone)
        = bucketOf (Task.mk "2" "B" (some "staging") DueField.vNone)) :=
  ⟨rfl, rfl, by decide,
    spec_C4_case_insensitive _ _ "Staging" "staging" rfl rfl (by decide)⟩

/-- C8: on the three tasks with columns `"Dev"`, `"UAT"`, `"Blocked"`,
`classify_tasks` returns an active bucket of length 2 in input order and
an empty blocked bucket, and the report's counts line reads
`InProgress=2, Blocked=0`. -/
theorem spec_C8_scenario :
    classify_tasks
        [Task.mk "1" "T1" (some "Dev") DueField.vNone,
         Task.mk "2" "T2" (some "UAT") DueField.vNone,
         Task.mk "3" "T3" (some "Blocked") DueField.vNone]
      = ([Task.mk "1" "T1" (some "Dev") DueField.vNone,
          Task.mk "2" "T2" (some "UAT") DueField.vNone], [])
    ∧ "Summary counts: InProgress=2, Blocked=0\n"
        ∈ (reportLines 16 "2025-01-01 00:00:00"
            [Task.mk "1" "T1" (some "Dev") DueField.vNone,
             Task.mk "2" "T2" (some "UAT") DueField.vNone] []).getD [] := by
  constructor
  · decide
  · decide

/-- C6: the report builder is total on well-formed tasks and
deterministic — identical inputs (project id, timestamp, buckets) give
identical output. -/
theorem spec_C6_total_deterministic
    (pid pid2 : Int) (now now2 : String) (wip wip2 blocked blocked2 : List Task)
    (h1 : ∀ t ∈ wip, wellFormedDue t.date_due = true)
    (h2 : ∀ t ∈ blocked, wellFormedDue t.date_due = true)
    (hp : pid = pid2) (hn : now = now2) (hw : wip = wip2) (hb : blocked = blocked2) :
    (∃ s, build_report_text pid now wip blocked = some s)
    ∧ build_report_text pid now wip blocked
        = build_report_text pid2 now2 wip2 blocked2 := by
  subst hp hn hw hb
  refine ⟨?_, rfl⟩
  obtain ⟨l1, hl1⟩ := sectionLines_isSome "Work In Progress" wip h1
  obtain ⟨l2, hl2⟩ := sectionLines_isSome "Blocked / On Hold" blocked h2
  exact ⟨_, by unfold build_report_text reportLines; rw [hl1, hl2]; rfl⟩

/-- Witness for C6 at a concrete one-task input. -/
theorem spec_C6_witness :
    (∀ t ∈ [Task.mk "1" "T1" (some "Dev") DueField.vNone],
        wellFormedDue t.date_due = true)
    ∧ ((∃ s, build_report_text 16 "2025-01-01 00:00:00"
          [Task.mk "1" "T1" (some "Dev") DueField.vNone] [] = some s)
      ∧ build_report_text 16 "2025-01-01 00:00:00"
            [Task.mk "1" "T1" (some "Dev") DueField.vNone] []
          = build_report_text 16 "2025-01-01 00:00:00"
            [Task.mk "1" "T1" (some "Dev") DueField.vNone] []) :=
  ⟨by decide,
    spec_C6_total_deterministic 16 16 "2025-01-01 00:00:00" "2025-01-01 00:00:00"
      [Task.mk "1" "T1" (some "Dev") DueField.vNone]
      [Task.mk "1" "T1" (some "Dev") DueField.vNone] [] []
      (by decide) (by decide) rfl rfl rfl rfl⟩

/-- C7: a task with no `date_due` renders the due field as the literal
`"No due"`, the line never fails, and no other placeholder appears in the
due slot. -/
theorem spec_C7_no_due (t : Task) (h : t.date_due = DueField.vNone) :
    dueStr t.date_due = some "No due"
    ∧ taskLine t = some ("  - " ++ t.title ++ " (id:" ++ t.id ++ " | due:" ++ "No due" ++
        " | column:" ++ pyShowOpt t.column_name ++ ")") := by
  refine ⟨by rw [h]; rfl, ?_⟩
  unfold taskLine
  rw [h]
  rfl

/-- Witness for C7 at a concrete task with an absent due date. -/
theorem spec_C7_witness :
    (Task.mk "9" "Doc" none DueField.vNone).date_due = DueField.vNone
    ∧ dueStr (Task.mk "9" "Doc" none DueField.vNone).date_due = some "No due"
    ∧ taskLine (Task.mk "9" "Doc" none DueField.vNone)
        = some "  - Doc (id:9 | due:No due | column:None)" := by
  have h := spec_C7_no_due (Task.mk "9" "Doc" none DueField.vNone) rfl
  exact ⟨rfl, h.1, by rw [h.2]; rfl⟩

/-- C10: every Python-falsy `date_due` value — absent, the integer `0`,
or the empty string — renders as `"No due"`; in particular epoch 0 is not
rendered as the date `1970-01-01`. -/
theorem spec_C10_falsy_due :
    dueStr DueField.vNone = some "No due"
    ∧ dueStr (DueField.vInt 0) = some "No due"
    ∧ dueStr (DueField.vStr "") = some "No due"
    ∧ formatEpochDate 0 = "1970-01-01"
    ∧ dueStr (DueField.vInt 0) ≠ some (formatEpochDate 0) := by
  refine ⟨rfl, by decide, rfl, by decide, by decide⟩


/-- The placeholder returned by `hf_summary` on failure is never the
empty string, hence Python-truthy in `save_report`. -/
theorem placeholder_ne_empty (e : String) :
    ("Unable to generate summary. Error: " ++ e) ≠ "" := by
  intro h
  have hlen := congrArg String.length h
  rw [String.length_append] at hlen
  have h35 : ("Unable to generate summary. Error: " : String).length = 35 := by decide
  have h0 : ("" : String).length = 0 := rfl
  rw [h35, h0] at hlen
  omega

theorem data_prefix_of_eq (a rest c : String) (h : c = a ++ rest) :
    a.data <+: c.data := ⟨rest.data, by rw [h, String.data_append]⟩

theorem data_suffix_of_eq (pre a c : String) (h : c = pre ++ a) :
    a.data <:+ c.data := ⟨pre.data, by rw [h, String.data_append]⟩

theorem save_report_content_of_ne (report s : String) (h : s ≠ "") :
    save_report_content report (some s)
      = "===== HF Summary =====\n" ++ (s ++ ("\n\n" ++ rawSection report)) := by
  simp only [save_report_content]
  rw [if_pos (bne_iff_ne.mpr h)]
  rw [String.append_assoc, String.append_assoc]

theorem rawSection_suffix (report : String) (o : Option String) :
    (rawSection report).data <:+ (save_report_content report o).data := by
  cases o with
  | none => exact ⟨[], rfl⟩
  | some s =>
    simp only [save_report_content]
    by_cases h : (s != "") = true
    · rw [if_pos h]
      exact data_suffix_of_eq ("===== HF Summary =====\n" ++ s ++ "\n\n") _ _ rfl
    · rw [if_neg h]

/-- C1, refuted at a concrete input: when the summarization call raises
(`boom`), `hf_summary` returns its truthy placeholder string, so the
content persisted by `save_report` DOES contain an
`===== HF Summary =====` section — contrary to the claim that the
persisted file excludes the summary section on failure. -/
theorem spec_C1_counterexample :
    hf_summary (fun _ => Except.error "boom") "RAW"
        = "Unable to generate summary. Error: boom"
    ∧ "===== HF Summary =====".data <+:
        (save_report_content "RAW"
          (some (hf_summary (fun _ => Except.error "boom") "RAW"))).data := by
  constructor
  · rfl
  · exact data_prefix_of_eq _
      ("\nUnable to generate summary. Error: boom\n\n===== Kanboard Raw Report =====\nRAW") _
      (by decide)

/-- C1 (amended): when the summarization call fails, `hf_summary` returns
a non-empty error placeholder, so the file written by `save_report`
includes the `===== HF Summary =====` section (here: as its prefix)
containing that placeholder, and the raw report section is always saved
(as the content's suffix). -/
theorem spec_C1_amended (report e : String) :
    "===== HF Summary =====".data <+:
      (save_report_content report
        (some (hf_summary (fun _ => Except.error e) report))).data
    ∧ (rawSection report).data <:+
      (save_report_content report
        (some (hf_summary (fun _ => Except.error e) report))).data := by
  have hs : hf_summary (fun _ => Except.error e) report
      = "Unable to generate summary. Error: " ++ e := rfl
  constructor
  · rw [hs]
    refine List.IsPrefix.trans ?_ (data_prefix_of_eq _ _ _
      (save_report_content_of_ne report _ (placeholder_ne_empty e)))
    decide
  · exact rawSection_suffix report _

/-- Shape of `run` once the fetch succeeded and the report built:
the file is saved with the summary `hf_summary` returned, then mail is
attempted unless `test_only`. -/
theorem run_ok_shape (test_only : Bool) (pid : Int) (w : World) (tasks : List Task)
    (plain : String)
    (hft : w.fetch = Except.ok tasks)
    (hb : build_report_text pid w.now (classify_tasks tasks).1 (classify_tasks tasks).2
        = some plain) :
    run test_only pid w
      = (let content := save_report_content plain (some (hf_summary w.hf plain));
         if test_only then ([Event.saved content], Except.ok ())
         else
           match w.send with
           | Except.error e => ([Event.saved content, Event.emailAttempt], Except.error e)
           | Except.ok _ =>
             ([Event.saved content, Event.emailAttempt, Event.emailSent], Except.ok ())) := by
  unfold run
  rw [hft]
  show (match build_report_text pid w.now (classify_tasks tasks).1 (classify_tasks tasks).2 with
    | none => ([], Except.error "ValueError: invalid date_due")
    | some plain =>
      let summary := hf_summary w.hf plain
      let content := save_report_content plain (some summary)
      if test_only then ([Event.saved content], Except.ok ())
      else
        match w.send with
        | Except.error e => ([Event.saved content, Event.emailAttempt], Except.error e)
        | Except.ok _ =>
          ([Event.saved content, Event.emailAttempt, Event.emailSent], Except.ok ())) = _
  rw [hb]

/-- C2: when the external text-generation call raises any exception,
`hf_summary` returns the placeholder instead of propagating it, and the
run still persists the raw report (the raw section is a suffix of the
saved content) and finishes without an unhandled error. -/
theorem spec_C2_no_propagation (pid : Int) (w : World) (e : String) (tasks : List Task)
    (plain : String)
    (hhf : ∀ p, w.hf p = Except.error e)
    (hft : w.fetch = Except.ok tasks)
    (hb : build_report_text pid w.now (classify_tasks tasks).1 (classify_tasks tasks).2
        = some plain) :
    hf_summary w.hf plain = "Unable to generate summary. Error: " ++ e
    ∧ (run true pid w).2 = Except.ok ()
    ∧ (run true pid w).1
        = [Event.saved (save_report_content plain
            (some ("Unable to generate summary. Error: " ++ e)))]
    ∧ (rawSection plain).data <:+
        (save_report_content plain
          (some ("Unable to generate summary. Error: " ++ e))).data := by
  have hsum : hf_summary w.hf plain = "Unable to generate summary. Error: " ++ e := by
    unfold hf_summary
    rw [hhf]
  have hr := run_ok_shape true pid w tasks plain hft hb
  rw [hsum] at hr
  simp only [if_pos] at hr
  rw [hr]
  exact ⟨hsum, rfl, rfl, rawSection_suffix plain _⟩

/-- C9: a mail-delivery failure is not caught — `run` ends with the
transport's error — but the event trace shows `save_report` ran before
the delivery attempt, so the raw report was already persisted. -/
theorem spec_C9_save_before_send (pid : Int) (w : World) (tasks : List Task)
    (plain e : String)
    (hft : w.fetch = Except.ok tasks)
    (hb : build_report_text pid w.now (classify_tasks tasks).1 (classify_tasks tasks).2
        = some plain)
    (hs : w.send = Except.error e) :
    (run false pid w).2 = Except.error e
    ∧ (run false pid w).1
        = [Event.saved (save_report_content plain (some (hf_summary w.hf plain))),
           Event.emailAttempt]
    ∧ (rawSection plain).data <:+
        (save_report_content plain (some (hf_summary w.hf plain))).data := by
  have hr := run_ok_shape false pid w tasks plain hft hb
  rw [hs] at hr
  simp only [Bool.false_eq_true, if_false] at hr
  rw [hr]
  exact ⟨rfl, rfl, rawSection_suffix plain _⟩

/-- Witness for C2: a concrete world whose Hugging Face call always raises. -/
theorem spec_C2_witness :
    hf_summary (fun _ => Except.error "boom") "Kanboard AI Report â€” Project 16\nGenerated: TS\n\nSummary counts: InProgress=0, Blocked=0\n\nWork In Progress:\n  None\n\nBlocked / On Hold:\n  None\n"
        = "Unable to generate summary. Error: " ++ "boom"
    ∧ (run true 16 (World.mk (Except.ok []) (fun _ => Except.error "boom")
        (Except.ok ()) "TS")).2 = Except.ok ()
    ∧ (run true 16 (World.mk (Except.ok []) (fun _ => Except.error "boom")
        (Except.ok ()) "TS")).1
        = [Event.saved (save_report_content "Kanboard AI Report â€” Project 16\nGenerated: TS\n\nSummary counts: InProgress=0, Blocked=0\n\nWork In Progress:\n  None\n\nBlocked / On Hold:\n  None\n"
            (some ("Unable to generate summary. Error: " ++ "boom")))]
    ∧ (rawSection "Kanboard AI Report â€” Project 16\nGenerated: TS\n\nSummary counts: InProgress=0, Blocked=0\n\nWork In Progress:\n  None\n\nBlocked / On Hold:\n  None\n").data <:+
        (save_report_content "Kanboard AI Report â€” Project 16\nGenerated: TS\n\nSummary counts: InProgress=0, Blocked=0\n\nWork In Progress:\n  None\n\nBlocked / On Hold:\n  None\n"
          (some ("Unable to generate summary. Error: " ++ "boom"))).data :=
  spec_C2_no_propagation 16
    (World.mk (Except.ok []) (fun _ => Except.error "boom") (Except.ok ()) "TS")
    "boom" [] "Kanboard AI Report â€” Project 16\nGenerated: TS\n\nSummary counts: InProgress=0, Blocked=0\n\nWork In Progress:\n  None\n\nBlocked / On Hold:\n  None\n" (fun _ => rfl) rfl (by decide)

/-- Witness for C9: a concrete world whose mail transport fails. -/
theorem spec_C9_witness :
    (run false 16 (World.mk (Except.ok []) (fun _ => Except.ok "SUM")
        (Except.error "smtp down") "TS")).2 = Except.error "smtp down"
    ∧ (run false 16 (World.mk (Except.ok []) (fun _ => Except.ok "SUM")
        (Except.error "smtp down") "TS")).1
        = [Event.saved (save_report_content "Kanboard AI Report â€” Project 16\nGenerated: TS\n\nSummary counts: InProgress=0, Blocked=0\n\nWork In Progress:\n  None\n\nBlocked / On Hold:\n  None\n"
            (some (hf_summary (fun _ => Except.ok "SUM") "Kanboard AI Report â€” Project 16\nGenerated: TS\n\nSummary counts: InProgress=0, Blocked=0\n\nWork In Progress:\n  None\n\nBlocked / On Hold:\n  None\n"))),
           Event.emailAttempt]
    ∧ (rawSection "Kanboard AI Report â€” Project 16\nGenerated: TS\n\nSummary counts: InProgress=0, Blocked=0\n\nWork In Progress:\n  None\n\nBlocked / On Hold:\n  None\n").data <:+
        (save_report_content "Kanboard AI Report â€” Project 16\nGenerated: TS\n\nSummary counts: InProgress=0, Blocked=0\n\nWork In Progress:\n  None\n\nBlocked / On Hold:\n  None\n"
          (some (hf_summary (fun _ => Except.ok "SUM") "Kanboard AI Report â€” Project 16\nGenerated: TS\n\nSummary counts: InProgress=0, Blocked=0\n\nWork In Progress:\n  None\n\nBlocked / On Hold:\n  None\n"))).data :=
  spec_C9_save_before_send 16
    (World.mk (Except.ok []) (fun _ => Except.ok "SUM") (Except.error "smtp down") "TS")
    [] "Kanboard AI Report â€” Project 16\nGenerated: TS\n\nSummary counts: InProgress=0, Blocked=0\n\nWork In Progress:\n  None\n\nBlocked / On Hold:\n  None\n" "smtp down" rfl (by decide) rfl

end KanboardAgent
